import Mathlib

/-!
Verification of the request-validation and error-normalization behaviour of the
AI chat service (two Flask variants: `deeppy.py` and `index.py`).

Strings from the Python code are modelled as `List Char`; JSON request bodies
as association lists from `String` keys to `JsonValue`s (Python dicts parsed
from JSON have unique keys; theorems that depend on key counts are stated on
the association-list representation directly).  The external chat backend
(the `ollama` client) is modelled as a function from the forwarded prompt to
an abstract result: a returned reply shape or a raised exception.  Each route
handler returns, besides its HTTP response, the list of prompts it actually
forwarded to the backend, so that call counts are part of the statements.
-/

namespace ChatService

/-- A parsed JSON value, as produced by `request.get_json()`. -/
inductive JsonValue where
  | jnull : JsonValue
  | jbool : Bool → JsonValue
  | jnum : Int → JsonValue
  | jstr : List Char → JsonValue
  | jarr : List JsonValue → JsonValue
  | jobj : List (String × JsonValue) → JsonValue

/-- A request body that parsed to a JSON mapping (a Python dict). -/
abbrev DeepBody := List (String × JsonValue)

/-- Python whitespace characters stripped by str.strip (ASCII subset). -/
def pyIsSpace (c : Char) : Bool :=
  c = ' ' || c = '\t' || c = '\n' || c = '\x0d' || c = '\x0b' || c = '\x0c'

/-- Drop leading whitespace, as the left half of Python str.strip. -/
def ltrim (s : List Char) : List Char := s.dropWhile pyIsSpace

/-- Drop trailing whitespace, as the right half of Python str.strip. -/
def rtrim (s : List Char) : List Char := (s.reverse.dropWhile pyIsSpace).reverse

/-- Python str.strip: remove leading and trailing whitespace. -/
def pyStrip (s : List Char) : List Char := rtrim (ltrim s)

/-- Python text.replace of the one-character pattern < by the entity lt. -/
def replaceLt (s : List Char) : List Char :=
  s.flatMap fun c => if c = '<' then ['&', 'l', 't', ';'] else [c]

/-- Python text.replace of the one-character pattern > by the entity gt. -/
def replaceGt (s : List Char) : List Char :=
  s.flatMap fun c => if c = '>' then ['&', 'g', 't', ';'] else [c]

/-- sanitize_input from deeppy.py:
text.replace of < then of > then str.strip, in that order. -/
def sanitize_input (s : List Char) : List Char :=
  pyStrip (replaceGt (replaceLt s))

/-! Helper lemmas about the string operations. -/

theorem dropWhile_dropWhile (p : Char → Bool) (l : List Char) :
    (l.dropWhile p).dropWhile p = l.dropWhile p := by
  induction l with
  | nil => rfl
  | cons c cs ih =>
    by_cases h : p c
    · simp [List.dropWhile_cons, h, ih]
    · simp [List.dropWhile_cons, h]

theorem dropWhile_suffix (p : Char → Bool) (l : List Char) :
    ∃ t, t ++ l.dropWhile p = l := by
  induction l with
  | nil => exact ⟨[], rfl⟩
  | cons c cs ih =>
    by_cases h : p c
    · obtain ⟨t, ht⟩ := ih
      exact ⟨c :: t, by simp [List.dropWhile_cons, h, ht]⟩
    · exact ⟨[], by simp [List.dropWhile_cons, h]⟩

theorem mem_of_mem_dropWhile (p : Char → Bool) (l : List Char) (c : Char)
    (h : c ∈ l.dropWhile p) : c ∈ l := by
  obtain ⟨t, ht⟩ := dropWhile_suffix p l
  rw [← ht]; exact List.mem_append_right t h

theorem mem_of_mem_ltrim (s : List Char) (c : Char) (h : c ∈ ltrim s) : c ∈ s :=
  mem_of_mem_dropWhile pyIsSpace s c h

theorem mem_of_mem_rtrim (s : List Char) (c : Char) (h : c ∈ rtrim s) : c ∈ s := by
  unfold rtrim at h
  rw [List.mem_reverse] at h
  have := mem_of_mem_dropWhile pyIsSpace s.reverse c h
  rwa [List.mem_reverse] at this

theorem mem_of_mem_pyStrip (s : List Char) (c : Char) (h : c ∈ pyStrip s) : c ∈ s :=
  mem_of_mem_ltrim s c (mem_of_mem_rtrim (ltrim s) c h)

theorem head_not_space_of_ltrim_self (c : Char) (cs : List Char)
    (h : ltrim (c :: cs) = c :: cs) : pyIsSpace c = false := by
  by_contra hc
  have hc' : pyIsSpace c = true := by
    cases hcc : pyIsSpace c with
    | false => exact absurd hcc hc
    | true => rfl
  unfold ltrim at h
  rw [List.dropWhile_cons, hc'] at h
  simp only [if_true] at h
  have hlen : (cs.dropWhile pyIsSpace).length ≤ cs.length := by
    obtain ⟨t, ht⟩ := dropWhile_suffix pyIsSpace cs
    calc (cs.dropWhile pyIsSpace).length
        ≤ t.length + (cs.dropWhile pyIsSpace).length := Nat.le_add_left _ _
      _ = cs.length := by rw [← List.length_append, ht]
  have := congrArg List.length h
  simp at this
  omega

theorem ltrim_eq_self_of_head_not_space (c : Char) (cs : List Char)
    (h : pyIsSpace c = false) : ltrim (c :: cs) = c :: cs := by
  unfold ltrim
  rw [List.dropWhile_cons, h]
  simp

theorem rtrim_prefix (s : List Char) : ∃ t, rtrim s ++ t = s := by
  obtain ⟨t, ht⟩ := dropWhile_suffix pyIsSpace s.reverse
  refine ⟨t.reverse, ?_⟩
  have : (t ++ s.reverse.dropWhile pyIsSpace).reverse = s.reverse.reverse :=
    congrArg List.reverse ht
  rw [List.reverse_append, List.reverse_reverse] at this
  unfold rtrim
  exact this

theorem ltrim_ltrim (s : List Char) : ltrim (ltrim s) = ltrim s :=
  dropWhile_dropWhile pyIsSpace s

theorem rtrim_rtrim (s : List Char) : rtrim (rtrim s) = rtrim s := by
  unfold rtrim
  rw [List.reverse_reverse, dropWhile_dropWhile]

theorem ltrim_rtrim_of_ltrim_self (s : List Char) (h : ltrim s = s) :
    ltrim (rtrim s) = rtrim s := by
  obtain ⟨t, ht⟩ := rtrim_prefix s
  cases hr : rtrim s with
  | nil => rfl
  | cons c cs =>
    have hs : s = c :: (cs ++ t) := by rw [← ht, hr]; simp
    have hc : pyIsSpace c = false := by
      apply head_not_space_of_ltrim_self c (cs ++ t)
      rw [← hs]; exact h
    exact ltrim_eq_self_of_head_not_space c cs hc

theorem pyStrip_pyStrip (s : List Char) : pyStrip (pyStrip s) = pyStrip s := by
  unfold pyStrip
  rw [ltrim_rtrim_of_ltrim_self (ltrim s) (ltrim_ltrim s), rtrim_rtrim]

theorem mem_replaceLt_ne (s : List Char) (c : Char) (h : c ∈ replaceLt s) :
    c ≠ '<' := by
  unfold replaceLt at h
  rw [List.mem_flatMap] at h
  obtain ⟨a, _, hc⟩ := h
  by_cases ha : a = '<'
  · rw [ha] at hc; simp at hc
    rcases hc with h1 | h1 | h1 | h1 <;> rw [h1] <;> decide
  · simp [ha] at hc
    rw [hc]
    intro hcl
    exact ha hcl

theorem mem_replaceGt_ne (s : List Char) (c : Char) (h : c ∈ replaceGt s) :
    c ≠ '>' := by
  unfold replaceGt at h
  rw [List.mem_flatMap] at h
  obtain ⟨a, _, hc⟩ := h
  by_cases ha : a = '>'
  · rw [ha] at hc; simp at hc
    rcases hc with h1 | h1 | h1 | h1 <;> rw [h1] <;> decide
  · simp [ha] at hc
    rw [hc]
    intro hcl
    exact ha hcl

theorem mem_replaceGt_preserves (s : List Char) (hs : ∀ c ∈ s, c ≠ '<')
    (c : Char) (h : c ∈ replaceGt s) : c ≠ '<' := by
  unfold replaceGt at h
  rw [List.mem_flatMap] at h
  obtain ⟨a, ha, hc⟩ := h
  by_cases hag : a = '>'
  · rw [hag] at hc; simp at hc
    rcases hc with h1 | h1 | h1 | h1 <;> rw [h1] <;> decide
  · simp [hag] at hc
    rw [hc]
    exact hs a ha

theorem replaceLt_eq_self (s : List Char) (hs : ∀ c ∈ s, c ≠ '<') :
    replaceLt s = s := by
  induction s with
  | nil => rfl
  | cons c cs ih =>
    unfold replaceLt
    have hc : c ≠ '<' := hs c (List.mem_cons_self c cs)
    have hcs : replaceLt cs = cs := ih fun d hd => hs d (List.mem_cons_of_mem c hd)
    unfold replaceLt at hcs
    rw [List.flatMap_cons, if_neg hc, hcs]
    rfl

theorem replaceGt_eq_self (s : List Char) (hs : ∀ c ∈ s, c ≠ '>') :
    replaceGt s = s := by
  induction s with
  | nil => rfl
  | cons c cs ih =>
    unfold replaceGt
    have hc : c ≠ '>' := hs c (List.mem_cons_self c cs)
    have hcs : replaceGt cs = cs := ih fun d hd => hs d (List.mem_cons_of_mem c hd)
    unfold replaceGt at hcs
    rw [List.flatMap_cons, if_neg hc, hcs]
    rfl

theorem sanitize_input_idem (s : List Char) :
    sanitize_input (sanitize_input s) = sanitize_input s := by
  unfold sanitize_input
  set u := replaceGt (replaceLt s) with hu
  have hnoLt : ∀ c ∈ pyStrip u, c ≠ '<' := fun c hc =>
    mem_replaceGt_preserves (replaceLt s) (mem_replaceLt_ne s) c
      (mem_of_mem_pyStrip u c hc)
  have hnoGt : ∀ c ∈ pyStrip u, c ≠ '>' := fun c hc =>
    mem_replaceGt_ne (replaceLt s) c (mem_of_mem_pyStrip u c hc)
  rw [replaceLt_eq_self (pyStrip u) hnoLt, replaceGt_eq_self (pyStrip u) hnoGt,
    pyStrip_pyStrip]

/-! Embedding of the deeppy.py variant. -/

/-- An HTTP response of the deeppy.py variant: either the json_error shape
(status error, a message, and the HTTP code, which doubles as the response
status code) or the success shape wrapping the generated text. -/
inductive DeepResp where
  | error : String → Nat → DeepResp
  | success : List Char → DeepResp
deriving DecidableEq

/-- The 413 message of deeppy.py, an f-string mentioning the configured
maximum. -/
def msg413 (maxLen : Nat) : String :=
  "Input exceeds " ++ toString maxLen ++ " characters"

/-- The checks of the validate_input decorator of deeppy.py, in source
order: missing input key (400), more than one top-level key (400), value not
a string or empty after strip (422), raw length over the configured maximum
(413).  Returns some error response at the first failing check, none if the
request passes. -/
def validate_input (maxLen : Nat) (data : DeepBody) : Option DeepResp :=
  match data.lookup "input" with
  | none => some (.error "Missing input field" 400)
  | some v =>
    if data.length > 1 then some (.error "Unexpected fields in payload" 400)
    else
      match v with
      | .jstr s =>
        if (pyStrip s).isEmpty then
          some (.error "Input must be non-empty string" 422)
        else if s.length > maxLen then some (.error (msg413 maxLen) 413)
        else none
      | _ => some (.error "Input must be non-empty string" 422)

/-- The shape of a reply returned by the ollama chat call, as deeppy.py
inspects it: falsy (not response), a truthy mapping without a message key, or
one with a message whose content field may be absent. -/
inductive ChatReply where
  | falsy : ChatReply
  | noMessage : ChatReply
  | message : Option (List Char) → ChatReply

/-- The outcome of one ollama chat call: a returned reply, or a raised
exception (connection failure, timeout, and so on). -/
inductive ChatResult where
  | ok : ChatReply → ChatResult
  | exn : ChatResult

/-- generate_ai_response of deeppy.py: calls chat, raises ValueError on a
falsy reply or one without a message key, returns the content field with
default empty; any exception is caught and re-raised as
RuntimeError with the fixed message. -/
def generate_ai_response (res : ChatResult) : Except String (List Char) :=
  match res with
  | .exn => .error "AI processing failed"
  | .ok .falsy => .error "AI processing failed"
  | .ok .noMessage => .error "AI processing failed"
  | .ok (.message c) => .ok (c.getD [])

/-- The input value a validated deeppy.py request carries: data of the key
input, which validation has ensured is a string. -/
def inputText (data : DeepBody) : List Char :=
  match data.lookup "input" with
  | some (.jstr s) => s
  | _ => []

/-- The chat_handler body of deeppy.py: sanitizes the input, forwards it to
the backend once, wraps the generated text in a success response, and maps
any raised exception to json_error with its message and code 500.  The
second component lists the prompts forwarded to the backend. -/
def chat_handler_core (backend : List Char → ChatResult) (data : DeepBody) :
    DeepResp × List (List Char) :=
  let userInput := sanitize_input (inputText data)
  match generate_ai_response (backend userInput) with
  | .ok t => (.success t, [userInput])
  | .error m => (.error m 500, [userInput])

/-- The validate_input decorator wrapping an inner handler: on a failing
check it returns the error response without running the inner handler. -/
def validate_input_wrap (maxLen : Nat)
    (inner : DeepBody → DeepResp × List (List Char)) (data : DeepBody) :
    DeepResp × List (List Char) :=
  match validate_input maxLen data with
  | some e => (e, [])
  | none => inner data

/-- The validate_json decorator wrapping an inner handler: 415 when the
content type is not JSON, 400 when the body does not parse (body = none),
otherwise it runs the inner handler on the parsed mapping. -/
def validate_json_wrap (inner : DeepBody → DeepResp × List (List Char))
    (isJson : Bool) (body : Option DeepBody) : DeepResp × List (List Char) :=
  if !isJson then (.error "JSON payload required" 415, [])
  else
    match body with
    | none => (.error "Malformed JSON" 400, [])
    | some data => inner data

/-- The full /chat route of deeppy.py: validate_json, then validate_input,
then the handler body, composed exactly as the decorators stack them. -/
def deeppy_app (maxLen : Nat) (backend : List Char → ChatResult)
    (isJson : Bool) (body : Option DeepBody) : DeepResp × List (List Char) :=
  validate_json_wrap (validate_input_wrap maxLen (chat_handler_core backend))
    isJson body

/-- The combined validation verdict of both deeppy.py decorators: the first
failing check, or none when the request reaches the handler body. -/
def deeppy_validate (maxLen : Nat) (isJson : Bool) (body : Option DeepBody) :
    Option DeepResp :=
  if !isJson then some (.error "JSON payload required" 415)
  else
    match body with
    | none => some (.error "Malformed JSON" 400)
    | some data => validate_input maxLen data

/-- A health response: reported status string, HTTP code, and error
summaries. -/
structure HealthResp where
  status : String
  code : Nat
  errors : List String
deriving DecidableEq

/-- The /health route of deeppy.py: it contacts no backend and
unconditionally returns the fixed success body with HTTP 200.  The argument
is the liveness state of the backend (none = reachable, some e = the check
would fail with message e); the route ignores it, and the second component
counts the backend queries made (always zero). -/
def deeppy_health (_live : Option String) : HealthResp × Nat :=
  (⟨"success", 200, []⟩, 0)

/-! Embedding of the index.py variant. -/

/-- A Python exception as raised inside the index.py chat_handler try block:
the two ollama exception classes carrying an error payload, ValueError,
ConnectionError, KeyError (missing dict key), TypeError (indexing a None
reply), KeyboardInterrupt, or any other exception. -/
inductive PyExn where
  | responseError : String → PyExn
  | requestError : String → PyExn
  | valueError : String → PyExn
  | connError : PyExn
  | keyError : PyExn
  | typeError : PyExn
  | keyboardInterrupt : PyExn
  | otherExn : PyExn

/-- Membership in the ollama.ResponseError exception class. -/
def isResponseError : PyExn → Bool
  | .responseError _ => true
  | _ => false

/-- Membership in the ollama.RequestError exception class. -/
def isRequestError : PyExn → Bool
  | .requestError _ => true
  | _ => false

/-- Membership in the ValueError exception class. -/
def isValueError : PyExn → Bool
  | .valueError _ => true
  | _ => false

/-- Membership in the Exception class: every modelled exception except
KeyboardInterrupt, which derives from BaseException directly. -/
def isException : PyExn → Bool
  | .keyboardInterrupt => false
  | _ => true

/-- Membership in the KeyboardInterrupt class. -/
def isKeyboardInterrupt : PyExn → Bool
  | .keyboardInterrupt => true
  | _ => false

/-- Membership in the ConnectionError exception class. -/
def isConnError : PyExn → Bool
  | .connError => true
  | _ => false

/-- An HTTP response of the index.py variant: the 200 body wrapping the
generated text, or the error body with name, code and message. -/
inductive IndexResp where
  | ok : List Char → IndexResp
  | err : String → Nat → String → IndexResp
deriving DecidableEq

/-- The except-clause chain of the index.py chat_handler, tried in the
textual order of the source: ollama.ResponseError (502), ollama.RequestError
(502), ValueError (400), Exception (500), KeyboardInterrupt (500),
ConnectionError (503).  Python tests the clauses in this order and runs the
first whose class matches the raised exception; the final case models
propagation to the app-level Exception handler and is unreachable for the
classes modelled here. -/
def index_dispatch (e : PyExn) : IndexResp :=
  if isResponseError e then
    .err "AI Service Error" 502 (match e with | .responseError m => m | _ => "")
  else if isRequestError e then
    .err "AI Service Error" 502 (match e with | .requestError m => m | _ => "")
  else if isValueError e then
    .err "Bad Request" 400 (match e with | .valueError m => m | _ => "")
  else if isException e then
    .err "Internal Server Error" 500
      "An unexpected error occurred during chat processing"
  else if isKeyboardInterrupt e then
    .err "Service Interrupted" 500 "Service interrupted by user"
  else if isConnError e then
    .err "Service Unavailable" 503 "AI service is currently unavailable"
  else .err "Internal Server Error" 500 "An unexpected error occurred"

/-- The shape of a reply from the ollama client chat call as index.py
dereferences it: a falsy or non-mapping reply (indexing raises TypeError), a
mapping without the message key (KeyError), a message mapping without the
content key (KeyError), or a message with content. -/
inductive IndexReply where
  | falsyReply : IndexReply
  | noMessage : IndexReply
  | messageNoContent : IndexReply
  | content : List Char → IndexReply

/-- The outcome of one index.py backend chat call: a returned reply or a
raised exception. -/
inductive IndexChatResult where
  | ret : IndexReply → IndexChatResult
  | raised : PyExn → IndexChatResult

/-- The try-block body of the index.py chat_handler applied to the input
value v: the backend is called once with v as the message content; a
well-shaped reply yields the 200 body, dereferencing a bad reply raises
TypeError or KeyError, and every raised exception goes through the
except-clause chain.  The second component lists the values forwarded to
the backend. -/
def index_chat_core (backend : JsonValue → IndexChatResult) (v : JsonValue) :
    IndexResp × List JsonValue :=
  match backend v with
  | .raised e => (index_dispatch e, [v])
  | .ret .falsyReply => (index_dispatch .typeError, [v])
  | .ret .noMessage => (index_dispatch .keyError, [v])
  | .ret .messageNoContent => (index_dispatch .keyError, [v])
  | .ret (.content s) => (.ok s, [v])

/-- The /chat route of index.py: the validate_chat_input decorator aborts
with 400 when the parsed body is falsy (an empty mapping) or has no input
key; otherwise the handler forwards data of the key input to the backend
unchanged.  abort(400, description) is rendered by the HTTPException handler
as the error body with name Bad Request. -/
def index_app (backend : JsonValue → IndexChatResult) (data : DeepBody) :
    IndexResp × List JsonValue :=
  if data.isEmpty then
    (.err "Bad Request" 400 "Missing input field in request body", [])
  else
    match data.lookup "input" with
    | none => (.err "Bad Request" 400 "Missing input field in request body", [])
    | some v => index_chat_core backend v

/-- The /health route of index.py: queries the backend for its model list
(one backend query per call, counted in the second component); on success it
reports healthy with HTTP 200, on any exception it reports degraded with
HTTP 503 and the error summary.  The argument is the liveness state of the
backend: none = the query succeeds, some e = it raises with message e. -/
def index_health (live : Option String) : HealthResp × Nat :=
  match live with
  | none => (⟨"healthy", 200, []⟩, 1)
  | some e => (⟨"degraded", 503, ["Ollama connection failed: " ++ e]⟩, 1)

/-! Concrete mock backends used by witnesses. -/

/-- A deeppy backend mock that always returns a well-shaped reply. -/
def okDeepBackend : List Char → ChatResult :=
  fun _ => .ok (.message (some ['H', 'i']))

/-- An index backend mock that always returns a well-shaped reply. -/
def okIndexBackend : JsonValue → IndexChatResult :=
  fun _ => .ret (.content ['o', 'k'])

/-! Theorems for the claims. -/

/-- Claim C8: the sanitize operation is idempotent: sanitizing an already
sanitized string changes nothing, for every string. -/
theorem claim_c8_sanitize_idempotent (s : List Char) :
    sanitize_input (sanitize_input s) = sanitize_input s :=
  sanitize_input_idem s

/-- Claim C1: a /chat request that fails validation gets the validation
failure response and the backend is never invoked (the forwarded-prompt list
is empty); a request that passes validation invokes the backend exactly once
(the list has length one), with no retries.  Both variants: deeppy.py with
its full validation chain, index.py with its input-key check. -/
theorem claim_c1_validation_gates_backend (maxLen : Nat)
    (backend : List Char → ChatResult) (isJson : Bool) (body : Option DeepBody)
    (ibackend : JsonValue → IndexChatResult) (data : DeepBody) :
    (∀ e, deeppy_validate maxLen isJson body = some e →
      deeppy_app maxLen backend isJson body = (e, [])) ∧
    (deeppy_validate maxLen isJson body = none →
      (deeppy_app maxLen backend isJson body).2.length = 1) ∧
    (data.lookup "input" = none →
      index_app ibackend data =
        (.err "Bad Request" 400 "Missing input field in request body", [])) ∧
    (∀ v, data.lookup "input" = some v →
      (index_app ibackend data).2.length = 1) := by
  refine ⟨?_, ?_, ?_, ?_⟩
  · intro e he
    unfold deeppy_validate at he
    unfold deeppy_app validate_json_wrap validate_input_wrap
    cases isJson with
    | false => simp at he ⊢; exact he
    | true =>
      simp at he ⊢
      cases body with
      | none => simp at he ⊢; exact he
      | some d =>
        simp at he ⊢
        rw [he]
  · intro hn
    unfold deeppy_validate at hn
    unfold deeppy_app validate_json_wrap validate_input_wrap
    cases isJson with
    | false => simp at hn
    | true =>
      simp at hn ⊢
      cases body with
      | none => simp at hn
      | some d =>
        simp at hn ⊢
        rw [hn]
        unfold chat_handler_core
        cases hg : generate_ai_response (backend (sanitize_input (inputText d))) <;>
          simp [hg]
  · intro hn
    unfold index_app
    cases data with
    | nil => simp
    | cons kv rest =>
      simp [List.isEmpty]
      rw [hn]
  · intro v hv
    unfold index_app
    cases data with
    | nil => simp at hv
    | cons kv rest =>
      simp [List.isEmpty]
      rw [hv]
      unfold index_chat_core
      cases hb : ibackend v with
      | raised e => simp [hb]
      | ret r => cases r <;> simp [hb]

/-- Claim C1 witness: a concrete passing deeppy request invokes the backend
exactly once, and a concrete empty-body index request is rejected with 400
and zero backend calls. -/
theorem claim_c1_witness :
    (deeppy_app 1000 okDeepBackend true
        (some [("input", .jstr ['h', 'i'])])).2.length = 1 ∧
    index_app okIndexBackend [] =
      (.err "Bad Request" 400 "Missing input field in request body", []) := by
  constructor
  · exact (claim_c1_validation_gates_backend 1000 okDeepBackend true
      (some [("input", .jstr ['h', 'i'])]) okIndexBackend []).2.1 (by decide)
  · exact (claim_c1_validation_gates_backend 1000 okDeepBackend true
      (some [("input", .jstr ['h', 'i'])]) okIndexBackend []).2.2.1 rfl

/-- Claim C10: index.py validation only requires the parsed body to be a
non-empty mapping containing the key input: an empty mapping is rejected
with 400; any value under input, string or not, with or without extra keys,
is accepted and forwarded to the backend unchanged. -/
theorem claim_c10_index_validation (ibackend : JsonValue → IndexChatResult)
    (data : DeepBody) (v : JsonValue) :
    (index_app ibackend [] =
      (.err "Bad Request" 400 "Missing input field in request body", [])) ∧
    (data.lookup "input" = none →
      index_app ibackend data =
        (.err "Bad Request" 400 "Missing input field in request body", [])) ∧
    (data.lookup "input" = some v → (index_app ibackend data).2 = [v]) := by
  refine ⟨rfl, ?_, ?_⟩
  · intro hn
    unfold index_app
    cases data with
    | nil => simp
    | cons kv rest =>
      simp [List.isEmpty]
      rw [hn]
  · intro hv
    unfold index_app
    cases data with
    | nil => simp at hv
    | cons kv rest =>
      simp [List.isEmpty]
      rw [hv]
      unfold index_chat_core
      cases hb : ibackend v with
      | raised e => simp [hb]
      | ret r => cases r <;> simp [hb]

/-- Claim C10 witness: a concrete body with a non-string input value and an
extra top-level key is accepted and its input value forwarded unchanged. -/
theorem claim_c10_witness :
    (index_app okIndexBackend
      [("input", .jnum 5), ("extra", .jnull)]).2 = [.jnum 5] :=
  (claim_c10_index_validation okIndexBackend
    [("input", .jnum 5), ("extra", .jnull)] (.jnum 5)).2.2 rfl

/-- Claim C2, evaluation at the failing input: a validated request whose
backend call raises ConnectionError gets HTTP 500 Internal Server Error in
both variants, never 503.  In index.py the ConnectionError clause comes
after the Exception clause and therefore never runs: no exception at all can
produce its 503 Service Unavailable response; in deeppy.py every backend
exception is re-raised as RuntimeError and mapped to 500. -/
theorem claim_c2_conn_error_maps_to_500 :
    (∀ v : JsonValue,
      index_chat_core (fun _ => .raised .connError) v =
        (.err "Internal Server Error" 500
          "An unexpected error occurred during chat processing", [v])) ∧
    (∀ e : PyExn, ∀ m : String,
      index_dispatch e ≠ .err "Service Unavailable" 503 m) ∧
    (∀ data : DeepBody,
      (chat_handler_core (fun _ => ChatResult.exn) data).1 =
        .error "AI processing failed" 500) := by
  refine ⟨fun v => rfl, ?_, fun data => rfl⟩
  intro e m
  cases e <;> simp [index_dispatch, isResponseError, isRequestError,
    isValueError, isException, isKeyboardInterrupt, isConnError]

/-- Claim C3 counterexample: a validated deeppy request whose backend reply
carries an empty content string yields the Success outcome with empty text
(HTTP 200), not a BackendFailure. -/
theorem claim_c3_counterexample :
    deeppy_app 1000 (fun _ => .ok (.message (some []))) true
        (some [("input", .jstr ['h', 'i'])]) =
      (.success [], [['h', 'i']]) := by
  decide

/-- Claim C3 amended: in deeppy.py a reply that is absent or lacks the
message key is re-raised as RuntimeError and surfaces as HTTP 500 (an
InternalFailure shape), while a reply whose message lacks the content field,
or carries empty content, yields Success with empty text; in index.py an
absent reply or one missing the message or content key surfaces as the
generic HTTP 500, and empty content yields the 200 body. -/
theorem claim_c3_amended (data : DeepBody) (v : JsonValue) :
    ((chat_handler_core (fun _ => .ok .falsy) data).1 =
      .error "AI processing failed" 500) ∧
    ((chat_handler_core (fun _ => .ok .noMessage) data).1 =
      .error "AI processing failed" 500) ∧
    ((chat_handler_core (fun _ => .ok (.message none)) data).1 =
      .success []) ∧
    ((chat_handler_core (fun _ => .ok (.message (some []))) data).1 =
      .success []) ∧
    ((index_chat_core (fun _ => .ret .falsyReply) v).1 =
      .err "Internal Server Error" 500
        "An unexpected error occurred during chat processing") ∧
    ((index_chat_core (fun _ => .ret .noMessage) v).1 =
      .err "Internal Server Error" 500
        "An unexpected error occurred during chat processing") ∧
    ((index_chat_core (fun _ => .ret .messageNoContent) v).1 =
      .err "Internal Server Error" 500
        "An unexpected error occurred during chat processing") ∧
    ((index_chat_core (fun _ => .ret (.content [])) v).1 = .ok []) :=
  ⟨rfl, rfl, rfl, rfl, rfl, rfl, rfl, rfl⟩

/-- Claim C4 counterexample: index.py forwards accepted input to the backend
unsanitized: the request with input consisting of one left angle bracket
forwards that character unchanged, although sanitize maps it to the entity
and so differs from the forwarded text. -/
theorem claim_c4_counterexample :
    (index_app okIndexBackend [("input", .jstr ['<'])]).2 =
      [.jstr ['<']] ∧
    sanitize_input ['<'] = ['&', 'l', 't', ';'] ∧
    sanitize_input ['<'] ≠ ['<'] := by
  refine ⟨rfl, by decide, by decide⟩

/-- Claim C4 amended: in the deeppy.py variant the backend receives exactly
sanitize of the accepted input (angle brackets replaced by their entities,
whitespace trimmed); the index.py variant forwards the accepted input value
to the backend unchanged, with no sanitization step. -/
theorem claim_c4_amended (maxLen : Nat) (backend : List Char → ChatResult)
    (data : DeepBody) (s : List Char)
    (h : data.lookup "input" = some (.jstr s))
    (hv : validate_input maxLen data = none)
    (ibackend : JsonValue → IndexChatResult) (idata : DeepBody) (v : JsonValue)
    (hi : idata.lookup "input" = some v) :
    (deeppy_app maxLen backend true (some data)).2 = [sanitize_input s] ∧
    (index_app ibackend idata).2 = [v] := by
  constructor
  · unfold deeppy_app validate_json_wrap validate_input_wrap
    simp
    rw [hv]
    unfold chat_handler_core
    have hs : inputText data = s := by unfold inputText; rw [h]
    rw [hs]
    cases hg : generate_ai_response (backend (sanitize_input s)) <;> simp [hg]
  · unfold index_app
    cases idata with
    | nil => simp at hi
    | cons kv rest =>
      simp [List.isEmpty]
      rw [hi]
      unfold index_chat_core
      cases hb : ibackend v with
      | raised e => simp [hb]
      | ret r => cases r <;> simp [hb]

/-- Claim C4 witness: at the concrete input consisting of one left angle
bracket, deeppy forwards the four-character entity and index forwards the
raw value. -/
theorem claim_c4_witness :
    (deeppy_app 1000 okDeepBackend true
        (some [("input", .jstr ['<'])])).2 = [sanitize_input ['<']] ∧
    (index_app okIndexBackend [("input", .jstr ['<'])]).2 =
      [.jstr ['<']] :=
  claim_c4_amended 1000 okDeepBackend [("input", .jstr ['<'])] ['<'] rfl
    (by decide) okIndexBackend [("input", .jstr ['<'])] (.jstr ['<']) rfl

/-! Further helper lemmas, for the concrete long inputs of claims C6 and
C9, where direct kernel evaluation of thousand-character lists is
impractical. -/

theorem dropWhile_eq_self_of_no_sat (p : Char → Bool) (l : List Char)
    (h : ∀ c ∈ l, p c = false) : l.dropWhile p = l := by
  cases l with
  | nil => rfl
  | cons c cs =>
    rw [List.dropWhile_cons, h c (List.mem_cons_self c cs)]
    simp

theorem ltrim_eq_self_of_no_space (s : List Char)
    (h : ∀ c ∈ s, pyIsSpace c = false) : ltrim s = s :=
  dropWhile_eq_self_of_no_sat pyIsSpace s h

theorem rtrim_eq_self_of_no_space (s : List Char)
    (h : ∀ c ∈ s, pyIsSpace c = false) : rtrim s = s := by
  unfold rtrim
  rw [dropWhile_eq_self_of_no_sat pyIsSpace s.reverse
    (fun c hc => h c (List.mem_reverse.mp hc))]
  exact List.reverse_reverse s

theorem pyStrip_eq_self_of_no_space (s : List Char)
    (h : ∀ c ∈ s, pyIsSpace c = false) : pyStrip s = s := by
  unfold pyStrip
  rw [ltrim_eq_self_of_no_space s h, rtrim_eq_self_of_no_space s h]

theorem ltrim_replicate_space (n : Nat) :
    ltrim (List.replicate n ' ') = [] := by
  induction n with
  | zero => rfl
  | succ k ih =>
    unfold ltrim at ih ⊢
    rw [List.replicate_succ, List.dropWhile_cons]
    simp only [show pyIsSpace ' ' = true from rfl, if_true]
    exact ih

theorem pyStrip_replicate_space (n : Nat) :
    pyStrip (List.replicate n ' ') = [] := by
  unfold pyStrip
  rw [ltrim_replicate_space]
  rfl

theorem mem_replaceLt_preserves (s : List Char) (hs : ∀ c ∈ s, c ≠ '>')
    (c : Char) (h : c ∈ replaceLt s) : c ≠ '>' := by
  unfold replaceLt at h
  rw [List.mem_flatMap] at h
  obtain ⟨a, ha, hc⟩ := h
  by_cases hal : a = '<'
  · rw [hal] at hc; simp at hc
    rcases hc with h1 | h1 | h1 | h1 <;> rw [h1] <;> decide
  · simp [hal] at hc
    rw [hc]
    exact hs a ha

theorem no_space_replaceLt (s : List Char)
    (hs : ∀ c ∈ s, pyIsSpace c = false) (c : Char) (h : c ∈ replaceLt s) :
    pyIsSpace c = false := by
  unfold replaceLt at h
  rw [List.mem_flatMap] at h
  obtain ⟨a, ha, hc⟩ := h
  by_cases hal : a = '<'
  · rw [hal] at hc; simp at hc
    rcases hc with h1 | h1 | h1 | h1 <;> rw [h1] <;> decide
  · simp [hal] at hc
    rw [hc]
    exact hs a ha

theorem replaceLt_replicate_length (n : Nat) :
    (replaceLt (List.replicate n '<')).length = 4 * n := by
  induction n with
  | zero => rfl
  | succ k ih =>
    unfold replaceLt at ih ⊢
    have hhd : (if ('<' : Char) = '<' then ['&', 'l', 't', ';'] else ['<']) =
        ['&', 'l', 't', ';'] := rfl
    rw [List.replicate_succ, List.flatMap_cons, hhd, List.length_append, ih]
    show 4 + 4 * k = 4 * (k + 1)
    omega

theorem sanitize_replicate_lt_length (n : Nat) :
    (sanitize_input (List.replicate n '<')).length = 4 * n := by
  unfold sanitize_input
  have hlt : ∀ c ∈ List.replicate n '<', c ≠ '>' := by
    intro c hc
    rw [List.eq_of_mem_replicate hc]
    decide
  have hnogt : ∀ c ∈ replaceLt (List.replicate n '<'), c ≠ '>' :=
    mem_replaceLt_preserves (List.replicate n '<') hlt
  have hnospace : ∀ c ∈ List.replicate n '<', pyIsSpace c = false := by
    intro c hc
    rw [List.eq_of_mem_replicate hc]
    decide
  rw [replaceGt_eq_self (replaceLt (List.replicate n '<')) hnogt,
    pyStrip_eq_self_of_no_space (replaceLt (List.replicate n '<'))
      (no_space_replaceLt (List.replicate n '<') hnospace)]
  exact replaceLt_replicate_length n

theorem replicate_isEmpty_false (n : Nat) (c : Char) (h : n ≠ 0) :
    (List.replicate n c).isEmpty = false := by
  cases n with
  | zero => exact absurd rfl h
  | succ k => rw [List.replicate_succ]; rfl

theorem validate_input_singleton (maxLen : Nat) (s : List Char) :
    validate_input maxLen [("input", .jstr s)] =
      if (pyStrip s).isEmpty then
        some (.error "Input must be non-empty string" 422)
      else if s.length > maxLen then some (.error (msg413 maxLen) 413)
      else none := by
  unfold validate_input
  simp [List.lookup]

theorem validate_input_singleton_none (maxLen : Nat) (s : List Char)
    (h1 : (pyStrip s).isEmpty = false) (h2 : ¬s.length > maxLen) :
    validate_input maxLen [("input", .jstr s)] = none := by
  rw [validate_input_singleton, h1]
  simp [h2]

theorem validate_input_singleton_413 (maxLen : Nat) (s : List Char)
    (h1 : (pyStrip s).isEmpty = false) (h2 : s.length > maxLen) :
    validate_input maxLen [("input", .jstr s)] =
      some (.error (msg413 maxLen) 413) := by
  rw [validate_input_singleton, h1]
  simp [h2]

theorem validate_input_singleton_422 (maxLen : Nat) (s : List Char)
    (h1 : (pyStrip s).isEmpty = true) :
    validate_input maxLen [("input", .jstr s)] =
      some (.error "Input must be non-empty string" 422) := by
  rw [validate_input_singleton, h1]
  simp

theorem deeppy_app_pass (maxLen : Nat) (backend : List Char → ChatResult)
    (data : DeepBody) (h : validate_input maxLen data = none) :
    deeppy_app maxLen backend true (some data) =
      chat_handler_core backend data := by
  unfold deeppy_app validate_json_wrap validate_input_wrap
  simp
  rw [h]

theorem chat_handler_calls (backend : List Char → ChatResult)
    (data : DeepBody) :
    (chat_handler_core backend data).2 =
      [sanitize_input (inputText data)] := by
  unfold chat_handler_core
  cases hg : generate_ai_response (backend (sanitize_input (inputText data))) <;>
    simp [hg]

/-- Claim C5: the deeppy.py validator applies its rules in a fixed order
with the first failing rule winning: wrong content type (415) before
unparsable body (400), then missing input key (400), then extra top-level
keys (400, independently of whatever the content checks would say), then
the content checks; a single failure is returned, never an accumulation. -/
theorem claim_c5_first_failing_rule_wins (maxLen : Nat)
    (body : Option DeepBody) (data : DeepBody) (s : List Char) :
    (deeppy_validate maxLen false body =
      some (.error "JSON payload required" 415)) ∧
    (deeppy_validate maxLen true none =
      some (.error "Malformed JSON" 400)) ∧
    (data.lookup "input" = none →
      validate_input maxLen data =
        some (.error "Missing input field" 400)) ∧
    (∀ v, data.lookup "input" = some v → data.length > 1 →
      validate_input maxLen data =
        some (.error "Unexpected fields in payload" 400)) ∧
    (validate_input maxLen [("input", .jstr s)] =
      if (pyStrip s).isEmpty then
        some (.error "Input must be non-empty string" 422)
      else if s.length > maxLen then some (.error (msg413 maxLen) 413)
      else none) := by
  refine ⟨rfl, rfl, ?_, ?_, ?_⟩
  · intro hn
    unfold validate_input
    rw [hn]
  · intro v hv hlen
    unfold validate_input
    rw [hv]
    simp [hlen]
  · unfold validate_input
    simp [List.lookup]

/-- Claim C5 witness: a body without the input key fails with the missing
field error, and a body with the input key, an extra key, and an input
value that would also fail the content checks gets the unexpected fields
error alone. -/
theorem claim_c5_witness :
    validate_input 3 [("x", .jnull)] =
      some (.error "Missing input field" 400) ∧
    validate_input 3 [("input", .jstr []), ("x", .jnull)] =
      some (.error "Unexpected fields in payload" 400) := by
  constructor
  · exact (claim_c5_first_failing_rule_wins 3 none [("x", .jnull)] []).2.2.1 rfl
  · exact (claim_c5_first_failing_rule_wins 3 none
      [("input", .jstr []), ("x", .jnull)] []).2.2.2.1 (.jstr []) rfl
      (by decide)

/-- Claim C6 counterexample: an input of 1001 space characters is longer
than the configured maximum of 1000, yet the validator returns the
empty-input failure with HTTP 422, not InputTooLong with 413, because the
emptiness-after-trimming check runs first. -/
theorem claim_c6_counterexample :
    validate_input 1000 [("input", .jstr (List.replicate 1001 ' '))] =
      some (.error "Input must be non-empty string" 422) ∧
    DeepResp.error "Input must be non-empty string" 422 ≠
      DeepResp.error (msg413 1000) 413 := by
  constructor
  · exact validate_input_singleton_422 1000 (List.replicate 1001 ' ')
      (by rw [pyStrip_replicate_space]; rfl)
  · decide

/-- Claim C6 amended: an input string longer than the configured maximum is
rejected as InputTooLong with 413 provided it is not whitespace-only; a
string that is empty or whitespace-only after trimming yields EmptyInput
with 422 regardless of its length, since the emptiness check precedes the
length check. -/
theorem claim_c6_amended (maxLen : Nat) (s : List Char) :
    ((pyStrip s).isEmpty = false → s.length > maxLen →
      validate_input maxLen [("input", .jstr s)] =
        some (.error (msg413 maxLen) 413)) ∧
    ((pyStrip s).isEmpty = true →
      validate_input maxLen [("input", .jstr s)] =
        some (.error "Input must be non-empty string" 422)) := by
  constructor
  · intro hne hlen
    unfold validate_input
    simp [List.lookup, hne, hlen]
  · intro he
    unfold validate_input
    simp [List.lookup, he]

/-- Claim C6 witness: a five-character non-whitespace input over a maximum
of three characters is rejected as InputTooLong with 413. -/
theorem claim_c6_witness :
    validate_input 3 [("input", .jstr ['a', 'a', 'a', 'a', 'a'])] =
      some (.error (msg413 3) 413) :=
  (claim_c6_amended 3 ['a', 'a', 'a', 'a', 'a']).1 (by decide) (by decide)

/-- Claim C7 counterexample: the deeppy.py /health route queries no backend
and, even when the backend is unreachable, returns the success body with
HTTP 200 and zero backend queries, not 503 degraded. -/
theorem claim_c7_counterexample :
    deeppy_health (some "connection refused") =
      (⟨"success", 200, []⟩, 0) ∧
    (⟨"success", 200, []⟩ : HealthResp) ≠
      ⟨"degraded", 503, ["Ollama connection failed: connection refused"]⟩ := by
  exact ⟨rfl, by decide⟩

/-- Claim C7 amended: the index.py /health route queries the backend once
per call and returns 200 healthy exactly when the query succeeds, and 503
degraded with an error summary when it fails; the deeppy.py /health route
performs no backend query and always returns 200 with its static success
body. -/
theorem claim_c7_amended (live : Option String) (e : String) :
    (index_health live).2 = 1 ∧
    index_health none = (⟨"healthy", 200, []⟩, 1) ∧
    index_health (some e) =
      (⟨"degraded", 503, ["Ollama connection failed: " ++ e]⟩, 1) ∧
    deeppy_health live = (⟨"success", 200, []⟩, 0) := by
  refine ⟨?_, rfl, rfl, rfl⟩
  cases live <;> rfl

/-- Claim C9: the length limit is enforced on the raw, untrimmed input
before sanitization.  The input of 1000 left angle brackets has raw length
1000 and is accepted, yet its sanitized form, which is exactly what reaches
the backend, has length 4000; and an input of a space followed by 1000
letters is rejected as too long although its trimmed length is only
1000. -/
theorem claim_c9_limit_on_raw_before_sanitize :
    validate_input 1000 [("input", .jstr (List.replicate 1000 '<'))] =
      none ∧
    (List.replicate 1000 '<').length = 1000 ∧
    (sanitize_input (List.replicate 1000 '<')).length = 4000 ∧
    (sanitize_input (List.replicate 1000 '<')).length > 1000 ∧
    (deeppy_app 1000 okDeepBackend true
        (some [("input", .jstr (List.replicate 1000 '<'))])).2 =
      [sanitize_input (List.replicate 1000 '<')] ∧
    validate_input 1000 [("input", .jstr (' ' :: List.replicate 1000 'a'))] =
      some (.error (msg413 1000) 413) ∧
    (pyStrip (' ' :: List.replicate 1000 'a')).length = 1000 := by
  have hnospace : ∀ c ∈ List.replicate 1000 '<', pyIsSpace c = false := by
    intro c hc
    rw [List.eq_of_mem_replicate hc]
    decide
  have hstrip : pyStrip (List.replicate 1000 '<') = List.replicate 1000 '<' :=
    pyStrip_eq_self_of_no_space _ hnospace
  have hwlen : (List.replicate 1000 '<').length = 1000 :=
    List.length_replicate 1000 '<'
  have hempty : (pyStrip (List.replicate 1000 '<')).isEmpty = false := by
    rw [hstrip]
    exact replicate_isEmpty_false 1000 '<' (by omega)
  have hval : validate_input 1000
      [("input", .jstr (List.replicate 1000 '<'))] = none :=
    validate_input_singleton_none 1000 (List.replicate 1000 '<') hempty
      (by rw [hwlen]; omega)
  have hlen4000 : (sanitize_input (List.replicate 1000 '<')).length = 4000 :=
    sanitize_replicate_lt_length 1000
  have hanospace : ∀ c ∈ List.replicate 1000 'a', pyIsSpace c = false := by
    intro c hc
    rw [List.eq_of_mem_replicate hc]
    decide
  have hastrip : pyStrip (' ' :: List.replicate 1000 'a') =
      List.replicate 1000 'a' := by
    unfold pyStrip ltrim
    rw [List.dropWhile_cons]
    simp only [show pyIsSpace ' ' = true from rfl, if_true]
    rw [dropWhile_eq_self_of_no_sat pyIsSpace _ hanospace]
    exact rtrim_eq_self_of_no_space _ hanospace
  have haempty : (pyStrip (' ' :: List.replicate 1000 'a')).isEmpty = false := by
    rw [hastrip]
    exact replicate_isEmpty_false 1000 'a' (by omega)
  refine ⟨hval, hwlen, hlen4000, by rw [hlen4000]; omega, ?_, ?_, ?_⟩
  · rw [deeppy_app_pass 1000 okDeepBackend _ hval, chat_handler_calls]
    rfl
  · exact validate_input_singleton_413 1000 (' ' :: List.replicate 1000 'a')
      haempty (by rw [List.length_cons, List.length_replicate]; omega)
  · rw [hastrip]
    exact List.length_replicate 1000 'a'

end ChatService
